import Mathlib

/-!
Shallow embedding of `src/backend/src/services/task.service.ts` (offer-hub).

The service talks to a relational store through supabase `.single()` queries,
each of which yields a pair `(data, error)`; "no rows" is signalled by the
store error code `PGRST116`.  We model the store as an explicit database
state (`DB`) plus a fault-injection record (`Faults`) that can make any one
of the store calls return an unexpected store error instead of its honest
result.  The blockchain registrar is modelled as a function from the attempt
index to a result.  Each service operation returns its result together with
the resulting database state and, for `createTaskRecord`, an effect trace
(registrar call count, backoff waits in milliseconds, insert attempts,
project-status updates).
-/

/-- Project row, as selected in `createTaskRecord`
(`select("id, client_id, status, title")`), plus `updated_at`, which the
service writes back via `updateProjectStatus`. -/
structure Project where
  id : String
  client_id : String
  status : String
  title : String
  updated_at : Nat
deriving Repr, DecidableEq

/-- TaskRecord row of the `task_records` table. -/
structure TaskRecord where
  id : String
  project_id : String
  freelancer_id : String
  client_id : String
  completed : Bool
  outcome_description : Option String
  on_chain_tx_hash : Option String
  on_chain_task_id : Option String
  rating : Option Nat
  rating_comment : Option String
  created_at : Nat
  updated_at : Nat
deriving Repr, DecidableEq

/-- `CreateTaskRecordDTO`: the fields destructured from `data` at the top of
`createTaskRecord`. -/
structure CreateTaskRecordDTO where
  project_id : String
  freelancer_id : String
  completed : Bool
  outcome_description : Option String
deriving Repr, DecidableEq

/-- `UpdateTaskRatingDTO`: `{ rating, comment? }`; `comment = none` models an
absent (undefined) comment. -/
structure UpdateTaskRatingDTO where
  rating : Nat
  comment : Option String
deriving Repr, DecidableEq

/-- `BlockchainTaskResult` returned by the blockchain registrar. -/
structure BlockchainTaskResult where
  transactionHash : String
  taskId : String
deriving Repr, DecidableEq

/-- Store error as surfaced by supabase
(`error.code`, `error.message`); code `PGRST116` means "no rows". -/
structure StoreError where
  code : String
  message : String
deriving Repr, DecidableEq

/-- Error taxonomy of `@/utils/AppError`: `NotFoundError`, `ValidationError`,
`AuthorizationError`, `ConflictError`, and the generic `AppError(msg, 500)`
(internal). -/
inductive AppErr where
  | notFound (message : String)
  | validation (message : String)
  | authorization (message : String)
  | conflict (message : String)
  | internal (message : String)
deriving Repr, DecidableEq

deriving instance DecidableEq for Except

/-- Database state: the `projects` and `task_records` tables. -/
structure DB where
  projects : List Project
  task_records : List TaskRecord
deriving Repr, DecidableEq

/-- Fault injection: an injected `StoreError` makes the corresponding store
call return that error with no data (and, for writes, no state change).
`none` everywhere gives the honest store. -/
structure Faults where
  projectFetch : Option StoreError := none
  existingFetch : Option StoreError := none
  insertRec : Option StoreError := none
  projectUpdate : Option StoreError := none
  recordFetch : Option StoreError := none
  recordUpdate : Option StoreError := none
deriving Repr, DecidableEq

/-- The all-honest fault record. -/
def noFaults : Faults := {}

/-- Effect trace of `createTaskRecord`: how many times the registrar was
invoked, the backoff waits (milliseconds, in order), how many insert calls
were issued, and the project-status updates issued
(`(project_id, new status, updated_at)`). -/
structure Trace where
  registrarCalls : Nat := 0
  waits : List Nat := []
  insertCalls : Nat := 0
  projectUpdateCalls : List (String × String × Nat) := []
deriving Repr, DecidableEq

/-- The empty trace (no effects issued). -/
def Trace.empty : Trace := {}

/-- Supabase `.single()` against a point lookup: an injected fault returns
that error; otherwise a found row is returned with no error, and no row
yields the `PGRST116` ("no rows") error. -/
def singleQuery {α : Type} (row : Option α) (fault : Option StoreError) :
    Option α × Option StoreError :=
  match fault with
  | some e => (none, some e)
  | none =>
    match row with
    | some a => (some a, none)
    | none => (none, some { code := "PGRST116", message := "no rows" })

/-- `supabase.from("projects").select(...).eq("id", pid).single()`. -/
def projectFetch (db : DB) (fault : Option StoreError) (pid : String) :
    Option Project × Option StoreError :=
  singleQuery (db.projects.find? (fun p => p.id == pid)) fault

/-- `supabase.from("task_records").select("id").eq("project_id", pid).single()`
(the duplicate check: only the row id is selected). -/
def existingFetch (db : DB) (fault : Option StoreError) (pid : String) :
    Option String × Option StoreError :=
  singleQuery ((db.task_records.find? (fun r => r.project_id == pid)).map (fun r => r.id)) fault

/-- `supabase.from("task_records").select("*").eq("id", rid).single()`. -/
def recordFetch (db : DB) (fault : Option StoreError) (rid : String) :
    Option TaskRecord × Option StoreError :=
  singleQuery (db.task_records.find? (fun r => r.id == rid)) fault

/-- The object literal inserted into `task_records` (lines 99-107 of the
service): note `client_id` is the `clientId` argument, and the on-chain
fields come from the optional registrar result. -/
structure InsertFields where
  project_id : String
  freelancer_id : String
  client_id : String
  completed : Bool
  outcome_description : Option String
  on_chain_tx_hash : Option String
  on_chain_task_id : Option String
deriving Repr, DecidableEq

/-- `supabase.from("task_records").insert([...]).select().single()`: the
database generates the row id and timestamps (modelled as the `freshId` and
`now` parameters) and returns the persisted row; rating fields start null. -/
def insertTaskRecord (db : DB) (fault : Option StoreError) (f : InsertFields)
    (freshId : String) (now : Nat) :
    Option TaskRecord × DB × Option StoreError :=
  match fault with
  | some e => (none, db, some e)
  | none =>
    let row : TaskRecord :=
      { id := freshId
        project_id := f.project_id
        freelancer_id := f.freelancer_id
        client_id := f.client_id
        completed := f.completed
        outcome_description := f.outcome_description
        on_chain_tx_hash := f.on_chain_tx_hash
        on_chain_task_id := f.on_chain_task_id
        rating := none
        rating_comment := none
        created_at := now
        updated_at := now }
    (some row, { db with task_records := db.task_records ++ [row] }, none)

/-- `supabase.from("projects").update({status, updated_at}).eq("id", pid)`. -/
def updateProjectStatus (db : DB) (fault : Option StoreError)
    (pid status : String) (now : Nat) : DB × Option StoreError :=
  match fault with
  | some e => (db, some e)
  | none =>
    ({ db with projects := db.projects.map (fun p =>
        if p.id == pid then { p with status := status, updated_at := now } else p) },
     none)

/-- The update payload built by `updateTaskRating`: `rating` and `updated_at`
always; `rating_comment` only when a comment was provided (`none` = field
absent, `some none` = explicit null, `some (some s)` = the string `s`). -/
structure UpdateData where
  rating : Nat
  rating_comment : Option (Option String)
  updated_at : Nat
deriving Repr, DecidableEq

/-- Applying an `UpdateData` payload to a row: only `rating`, `updated_at`
and (when present in the payload) `rating_comment` change. -/
def applyUpdate (r : TaskRecord) (u : UpdateData) : TaskRecord :=
  { r with
    rating := some u.rating
    updated_at := u.updated_at
    rating_comment :=
      match u.rating_comment with
      | none => r.rating_comment
      | some v => v }

/-- `supabase.from("task_records").update(u).eq("id", rid).select().single()`:
updates every row with the matching id and returns the updated row; when no
row matches, `.single()` yields the `PGRST116` error. -/
def updateTaskRecordInStore (db : DB) (fault : Option StoreError)
    (rid : String) (u : UpdateData) :
    Option TaskRecord × DB × Option StoreError :=
  match fault with
  | some e => (none, db, some e)
  | none =>
    match db.task_records.find? (fun r => r.id == rid) with
    | none => (none, db, some { code := "PGRST116", message := "no rows" })
    | some r =>
      (some (applyUpdate r u),
       { db with task_records := db.task_records.map (fun x =>
          if x.id == rid then applyUpdate x u else x) },
       none)

/-- The registrar retry loop of `createTaskRecord` (lines 65-93):

    while (retryCount < maxRetries) {
      try { blockchainResult = await recordTask(...); break; }
      catch { retryCount++;
        if (retryCount >= maxRetries) break;
        await sleep(2^retryCount * 1000); } }

`registrar n` is the outcome of the attempt made when `retryCount = n`.
The loop runs at most `maxRetries` iterations (each iteration either exits
or increments `retryCount`), so `fuel := maxRetries` bounds it exactly.
Returns (result, number of registrar invocations, waits in milliseconds). -/
def registerWithRetry (registrar : Nat → Except Unit BlockchainTaskResult) :
    Nat → Nat → Nat → Option BlockchainTaskResult × Nat × List Nat
  | 0, _, _ => (none, 0, [])
  | fuel + 1, retryCount, maxRetries =>
    if retryCount < maxRetries then
      match registrar retryCount with
      | Except.ok r => (some r, 1, [])
      | Except.error _ =>
        if retryCount + 1 ≥ maxRetries then
          (none, 1, [])
        else
          let rest := registerWithRetry registrar fuel (retryCount + 1) maxRetries
          (rest.1, rest.2.1 + 1, 2 ^ (retryCount + 1) * 1000 :: rest.2.2)
    else (none, 0, [])

/-- `createTaskRecord` after the four validation checks have passed
(lines 65-132): registrar attempt with retry, insert, best-effort project
status update. -/
def createAfterChecks (db : DB) (faults : Faults)
    (registrar : Nat → Except Unit BlockchainTaskResult)
    (data : CreateTaskRecordDTO) (clientId freshId : String) (now : Nat) :
    Except AppErr TaskRecord × DB × Trace :=
  let reg := registerWithRetry registrar 3 0 3
  let fields : InsertFields :=
    { project_id := data.project_id
      freelancer_id := data.freelancer_id
      client_id := clientId
      completed := data.completed
      outcome_description := data.outcome_description
      on_chain_tx_hash := reg.1.map (fun r => r.transactionHash)
      on_chain_task_id := reg.1.map (fun r => r.taskId) }
  match insertTaskRecord db faults.insertRec fields freshId now with
  | (some taskRecord, db1, none) =>
    let newProjectStatus := if data.completed then "completed" else "cancelled"
    let upd := updateProjectStatus db1 faults.projectUpdate data.project_id newProjectStatus now
    (Except.ok taskRecord, upd.1,
     { registrarCalls := reg.2.1, waits := reg.2.2, insertCalls := 1,
       projectUpdateCalls := [(data.project_id, newProjectStatus, now)] })
  | (_, db1, some e) =>
    (Except.error (AppErr.internal ("Failed to create task record: " ++ e.message)), db1,
     { registrarCalls := reg.2.1, waits := reg.2.2, insertCalls := 1,
       projectUpdateCalls := [] })
  | (none, db1, none) =>
    (Except.error (AppErr.internal "Failed to create task record: no row returned"), db1,
     { registrarCalls := reg.2.1, waits := reg.2.2, insertCalls := 1,
       projectUpdateCalls := [] })

/-- `createTaskRecord(data, clientId)` (lines 25-133): project lookup,
status check, authorization check, duplicate check, then
`createAfterChecks`. -/
def createTaskRecord (db : DB) (faults : Faults)
    (registrar : Nat → Except Unit BlockchainTaskResult)
    (data : CreateTaskRecordDTO) (clientId freshId : String) (now : Nat) :
    Except AppErr TaskRecord × DB × Trace :=
  match projectFetch db faults.projectFetch data.project_id with
  | (some project, none) =>
    if project.status != "in_progress" then
      (Except.error (AppErr.validation
        ("Project must be in 'in_progress' status to record task outcome. Current status: "
          ++ project.status)), db, Trace.empty)
    else if project.client_id != clientId then
      (Except.error (AppErr.authorization "Only the project client can record task outcomes"),
       db, Trace.empty)
    else
      match existingFetch db faults.existingFetch data.project_id with
      | (some _, _) =>
        (Except.error (AppErr.conflict "Task record already exists for this project"),
         db, Trace.empty)
      | (none, some e) =>
        if e.code != "PGRST116" then
          (Except.error (AppErr.internal
            ("Database error checking existing records: " ++ e.message)), db, Trace.empty)
        else createAfterChecks db faults registrar data clientId freshId now
      | (none, none) => createAfterChecks db faults registrar data clientId freshId now
  | _ => (Except.error (AppErr.notFound "Project not found"), db, Trace.empty)

/-- Leading and trailing whitespace removal on a character list. -/
def trimChars (l : List Char) : List Char :=
  ((l.dropWhile Char.isWhitespace).reverse.dropWhile Char.isWhitespace).reverse

/-- JavaScript `String.prototype.trim`: strips leading and trailing
whitespace (modelled over the string's character list so that it computes by
structural recursion). -/
def jsTrim (s : String) : String := ⟨trimChars s.data⟩

/-- Comment normalization of `updateTaskRating` (lines 240-243):
`comment && comment.trim().length > 0 ? comment.trim() : null`, only when the
comment was provided at all. -/
def normalizeComment (comment : Option String) : Option (Option String) :=
  match comment with
  | none => none
  | some c => some (if c != "" && 0 < (jsTrim c).length then some (jsTrim c) else none)

/-- `updateTaskRating(recordId, data, clientId)` (lines 202-257): fetch,
authorization check, write-once rating check, completed check, then the
store update of rating / comment / timestamp. -/
def updateTaskRating (db : DB) (faults : Faults) (recordId : String)
    (data : UpdateTaskRatingDTO) (clientId : String) (now : Nat) :
    Except AppErr TaskRecord × DB :=
  match recordFetch db faults.recordFetch recordId with
  | (some taskRecord, none) =>
    if taskRecord.client_id != clientId then
      (Except.error (AppErr.authorization "Only the project client can rate the task"), db)
    else if taskRecord.rating.isSome then
      (Except.error (AppErr.conflict "Rating has already been set and cannot be changed"), db)
    else if !taskRecord.completed then
      (Except.error (AppErr.validation "Only completed tasks can be rated"), db)
    else
      let updateData : UpdateData :=
        { rating := data.rating
          rating_comment := normalizeComment data.comment
          updated_at := now }
      match updateTaskRecordInStore db faults.recordUpdate recordId updateData with
      | (some updatedRecord, db1, none) => (Except.ok updatedRecord, db1)
      | (_, db1, some e) =>
        (Except.error (AppErr.internal ("Failed to update task rating: " ++ e.message)), db1)
      | (none, db1, none) =>
        (Except.error (AppErr.internal "Failed to update task rating: no row returned"), db1)
  | (_, some e) =>
    if e.code == "PGRST116" then
      (Except.error (AppErr.notFound "Task record not found"), db)
    else
      (Except.error (AppErr.internal ("Database error: " ++ e.message)), db)
  | (none, none) =>
    (Except.error (AppErr.internal "Database error: Unknown error"), db)

/-! ## Concrete fixtures used by witnesses and counterexamples -/

/-- A project in `in_progress` status owned by client `c1`. -/
def pOK : Project :=
  { id := "p1", client_id := "c1", status := "in_progress", title := "T", updated_at := 0 }

/-- The same project after the lifecycle moved it to `completed`. -/
def pDone : Project :=
  { id := "p1", client_id := "c1", status := "completed", title := "T", updated_at := 50 }

/-- The same project still in `draft` status. -/
def pDraft : Project :=
  { id := "p1", client_id := "c1", status := "draft", title := "T", updated_at := 0 }

/-- A creation request for project `p1` by freelancer `f1`. -/
def dtoOK : CreateTaskRecordDTO :=
  { project_id := "p1", freelancer_id := "f1", completed := true, outcome_description := none }

/-- Database holding only `pOK`, with no task records. -/
def dbOK : DB := { projects := [pOK], task_records := [] }

/-- A task record already persisted for project `p1`. -/
def recExisting : TaskRecord :=
  { id := "tr1", project_id := "p1", freelancer_id := "f1", client_id := "c1",
    completed := true, outcome_description := none, on_chain_tx_hash := none,
    on_chain_task_id := none, rating := none, rating_comment := none,
    created_at := 100, updated_at := 100 }

/-- Post-first-call state: project moved to `completed`, record persisted. -/
def dbDone : DB := { projects := [pDone], task_records := [recExisting] }

/-- Project still `in_progress` but a task record already exists. -/
def dbDup : DB := { projects := [pOK], task_records := [recExisting] }

/-- A registrar that fails on every attempt. -/
def failReg : Nat → Except Unit BlockchainTaskResult := fun _ => Except.error ()

/-- A registrar that succeeds immediately. -/
def okReg : Nat → Except Unit BlockchainTaskResult :=
  fun _ => Except.ok { transactionHash := "0xabc", taskId := "7" }

/-- A completed, not-yet-rated task record owned by client `c1`. -/
def recDone : TaskRecord := { recExisting with id := "t1" }

/-- Database holding only `recDone`. -/
def dbRate : DB := { projects := [], task_records := [recDone] }

/-- `recDone` with its rating already set to 5. -/
def recRated : TaskRecord := { recDone with rating := some 5 }

/-- Database holding only `recRated`. -/
def dbRated : DB := { projects := [], task_records := [recRated] }

/-- `recDone` with `completed = false`. -/
def recIncomplete : TaskRecord := { recDone with completed := false }

/-- Database holding only `recIncomplete`. -/
def dbIncomplete : DB := { projects := [], task_records := [recIncomplete] }

/-! ## Helper lemmas -/

/-- When every registrar attempt fails, the retry loop makes exactly 3
attempts and sleeps 2000 ms then 4000 ms between them. -/
theorem registerWithRetry_allFail (registrar : Nat → Except Unit BlockchainTaskResult)
    (h : ∀ n, registrar n = Except.error ()) :
    registerWithRetry registrar 3 0 3 = (none, 3, [2000, 4000]) := by
  simp [registerWithRetry, h]

/-! ## Claim theorems -/

/-- C1: if every registrar attempt fails, `createTaskRecord` invokes the
registrar exactly 3 times, with backoff waits of 2000 ms then 4000 ms, and
still succeeds: it returns a persisted `TaskRecord` whose `on_chain_tx_hash`
and `on_chain_task_id` are unset.  Registrar failure never aborts record
creation. -/
theorem createTaskRecord_allRegistrarFailures
    (db : DB) (registrar : Nat → Except Unit BlockchainTaskResult)
    (data : CreateTaskRecordDTO) (clientId freshId : String) (now : Nat) (p : Project)
    (hreg : ∀ n, registrar n = Except.error ())
    (hp : db.projects.find? (fun q => q.id == data.project_id) = some p)
    (hst : p.status = "in_progress")
    (hcl : p.client_id = clientId)
    (hdup : db.task_records.find? (fun r => r.project_id == data.project_id) = none) :
    ∃ taskRecord db1,
      createTaskRecord db noFaults registrar data clientId freshId now =
        (Except.ok taskRecord, db1,
         { registrarCalls := 3, waits := [2000, 4000], insertCalls := 1,
           projectUpdateCalls :=
             [(data.project_id, if data.completed then "completed" else "cancelled", now)] }) ∧
      taskRecord.on_chain_tx_hash = none ∧
      taskRecord.on_chain_task_id = none ∧
      taskRecord ∈ db1.task_records := by
  have hreg3 := registerWithRetry_allFail registrar hreg
  have hmain : createTaskRecord db noFaults registrar data clientId freshId now =
      createAfterChecks db noFaults registrar data clientId freshId now := by
    simp [createTaskRecord, projectFetch, existingFetch, singleQuery, noFaults, hp, hdup,
      hst, hcl]
  rw [hmain]
  simp only [createAfterChecks, hreg3, insertTaskRecord, noFaults, updateProjectStatus]
  refine ⟨_, _, rfl, rfl, rfl, ?_⟩
  simp

/-- C1 witness: concrete run on `dbOK` with an always-failing registrar. -/
theorem createTaskRecord_allRegistrarFailures_witness :
    ∃ taskRecord db1,
      createTaskRecord dbOK noFaults failReg dtoOK "c1" "tr1" 100 =
        (Except.ok taskRecord, db1,
         { registrarCalls := 3, waits := [2000, 4000], insertCalls := 1,
           projectUpdateCalls :=
             [(dtoOK.project_id, if dtoOK.completed then "completed" else "cancelled", 100)] }) ∧
      taskRecord.on_chain_tx_hash = none ∧
      taskRecord.on_chain_task_id = none ∧
      taskRecord ∈ db1.task_records :=
  createTaskRecord_allRegistrarFailures dbOK failReg dtoOK "c1" "tr1" 100 pOK
    (fun _ => rfl) (by decide) (by decide) (by decide) (by decide)

/-- C2 counterexample: in `dbDone` a TaskRecord already exists for project
`p1`, yet `createTaskRecord` fails with ValidationError (the project is no
longer `in_progress` after the first call moved it to `completed`), not with
Conflict.  The claim "fails with Conflict for every project_id with an
existing record" is therefore false as stated. -/
theorem createTaskRecord_existing_notConflict :
    (∃ r ∈ dbDone.task_records, r.project_id = dtoOK.project_id) ∧
    (createTaskRecord dbDone noFaults failReg dtoOK "c1" "tr2" 200).1 =
      Except.error (AppErr.validation
        "Project must be in 'in_progress' status to record task outcome. Current status: completed") ∧
    (createTaskRecord dbDone noFaults failReg dtoOK "c1" "tr2" 200).1 ≠
      Except.error (AppErr.conflict "Task record already exists for this project") := by
  refine ⟨⟨recExisting, by decide, by decide⟩, by decide, by decide⟩

/-- C2 amended: when the earlier checks pass (the project exists, is
`in_progress`, and is owned by the requester), a non-racing call for a
project that already has a TaskRecord fails with Conflict before any
registrar call or insert (empty trace, database unchanged), so the existing
record is never overwritten; and when the duplicate check itself returns a
store error other than "no rows" (`PGRST116`), the operation fails with
InternalError. -/
theorem createTaskRecord_duplicate_conflict
    (db : DB) (registrar : Nat → Except Unit BlockchainTaskResult)
    (data : CreateTaskRecordDTO) (clientId freshId : String) (now : Nat) (p : Project)
    (hp : db.projects.find? (fun q => q.id == data.project_id) = some p)
    (hst : p.status = "in_progress")
    (hcl : p.client_id = clientId) :
    (∀ r, db.task_records.find? (fun t => t.project_id == data.project_id) = some r →
      createTaskRecord db noFaults registrar data clientId freshId now =
        (Except.error (AppErr.conflict "Task record already exists for this project"),
         db, Trace.empty)) ∧
    (∀ e : StoreError, e.code ≠ "PGRST116" →
      createTaskRecord db { existingFetch := some e } registrar data clientId freshId now =
        (Except.error (AppErr.internal
          ("Database error checking existing records: " ++ e.message)), db, Trace.empty)) := by
  constructor
  · intro r hr
    simp [createTaskRecord, projectFetch, existingFetch, singleQuery, noFaults, hp, hst, hcl, hr]
  · intro e he
    simp [createTaskRecord, projectFetch, existingFetch, singleQuery, hp, hst, hcl, he]

/-- C2 witness: concrete Conflict on `dbDup` and concrete InternalError under
an injected store error. -/
theorem createTaskRecord_duplicate_conflict_witness :
    createTaskRecord dbDup noFaults failReg dtoOK "c1" "tr2" 200 =
      (Except.error (AppErr.conflict "Task record already exists for this project"),
       dbDup, Trace.empty) ∧
    createTaskRecord dbDup { existingFetch := some { code := "08006", message := "boom" } }
        failReg dtoOK "c1" "tr2" 200 =
      (Except.error (AppErr.internal "Database error checking existing records: boom"),
       dbDup, Trace.empty) := by
  have h := createTaskRecord_duplicate_conflict dbDup failReg dtoOK "c1" "tr2" 200 pOK
    (by decide) (by decide) (by decide)
  exact ⟨h.1 recExisting (by decide), h.2 { code := "08006", message := "boom" } (by decide)⟩

/-- C3 counterexample: `recRated` has its rating already set (to 5), yet an
`updateTaskRating` call by requester `x` (not the record's client `c1`) —
even one supplying the same rating value 5 — fails with AuthorizationError,
not Conflict.  "Any updateTaskRating call on an already-rated record fails
with Conflict" is therefore false as stated. -/
theorem updateTaskRating_rated_wrongRequester :
    recRated.rating = some 5 ∧
    updateTaskRating dbRated noFaults "t1" { rating := 5, comment := none } "x" 300 =
      (Except.error (AppErr.authorization "Only the project client can rate the task"),
       dbRated) ∧
    (updateTaskRating dbRated noFaults "t1" { rating := 5, comment := none } "x" 300).1 ≠
      Except.error (AppErr.conflict "Rating has already been set and cannot be changed") := by
  refine ⟨by decide, by decide, by decide⟩

/-- C3 amended: for every TaskRecord whose rating is already set, an
`updateTaskRating` call by the record's client — including one supplying the
same rating value — fails with Conflict, and a call by any other requester
fails with AuthorizationError; in both cases the database (hence the stored
rating) is unchanged, so `unset → set` remains the only legal transition. -/
theorem updateTaskRating_writeOnce
    (db : DB) (rid : String) (data : UpdateTaskRatingDTO) (clientId : String)
    (now : Nat) (r : TaskRecord) (v : Nat)
    (hr : db.task_records.find? (fun t => t.id == rid) = some r)
    (hrat : r.rating = some v) :
    (r.client_id = clientId →
      updateTaskRating db noFaults rid data clientId now =
        (Except.error (AppErr.conflict "Rating has already been set and cannot be changed"),
         db)) ∧
    (r.client_id ≠ clientId →
      updateTaskRating db noFaults rid data clientId now =
        (Except.error (AppErr.authorization "Only the project client can rate the task"),
         db)) := by
  constructor
  · intro hcl
    simp [updateTaskRating, recordFetch, singleQuery, noFaults, hr, hcl, hrat]
  · intro hcl
    simp [updateTaskRating, recordFetch, singleQuery, noFaults, hr, hcl, hrat]

/-- C3 witness: Conflict for the client (same rating value 5), and
AuthorizationError for a stranger, both leaving `dbRated` unchanged. -/
theorem updateTaskRating_writeOnce_witness :
    updateTaskRating dbRated noFaults "t1" { rating := 5, comment := none } "c1" 300 =
      (Except.error (AppErr.conflict "Rating has already been set and cannot be changed"),
       dbRated) ∧
    updateTaskRating dbRated noFaults "t1" { rating := 4, comment := none } "x" 300 =
      (Except.error (AppErr.authorization "Only the project client can rate the task"),
       dbRated) :=
  ⟨(updateTaskRating_writeOnce dbRated "t1" { rating := 5, comment := none } "c1" 300
      recRated 5 (by decide) (by decide)).1 (by decide),
   (updateTaskRating_writeOnce dbRated "t1" { rating := 4, comment := none } "x" 300
      recRated 5 (by decide) (by decide)).2 (by decide)⟩

/-- C4: for every existing project whose status is not `in_progress`,
`createTaskRecord` fails with a ValidationError whose message includes the
project's actual status, and performs no writes: the database is returned
unchanged (so the project's status and `updated_at` are untouched and no
TaskRecord is inserted) and the trace is empty (no registrar call, no insert
call, no project update).  This holds for any requester, any registrar, and
any injected faults on the later operations. -/
theorem createTaskRecord_wrongStatus
    (db : DB) (faults : Faults) (registrar : Nat → Except Unit BlockchainTaskResult)
    (data : CreateTaskRecordDTO) (clientId freshId : String) (now : Nat) (p : Project)
    (hf : faults.projectFetch = none)
    (hp : db.projects.find? (fun q => q.id == data.project_id) = some p)
    (hst : p.status ≠ "in_progress") :
    createTaskRecord db faults registrar data clientId freshId now =
      (Except.error (AppErr.validation
        ("Project must be in 'in_progress' status to record task outcome. Current status: "
          ++ p.status)), db, Trace.empty) ∧
    ∃ pre,
      "Project must be in 'in_progress' status to record task outcome. Current status: "
        ++ p.status = pre ++ p.status := by
  refine ⟨?_, "Project must be in 'in_progress' status to record task outcome. Current status: ",
    rfl⟩
  simp [createTaskRecord, projectFetch, singleQuery, hf, hp, hst]

/-- C4 witness: concrete ValidationError on a `draft` project, requester
being a stranger, with the failing store operations unfaulted. -/
theorem createTaskRecord_wrongStatus_witness :
    createTaskRecord { projects := [pDraft], task_records := [] } noFaults failReg dtoOK
        "x" "tr1" 100 =
      (Except.error (AppErr.validation
        ("Project must be in 'in_progress' status to record task outcome. Current status: "
          ++ pDraft.status)),
       { projects := [pDraft], task_records := [] }, Trace.empty) ∧
    ∃ pre,
      "Project must be in 'in_progress' status to record task outcome. Current status: "
        ++ pDraft.status = pre ++ pDraft.status :=
  createTaskRecord_wrongStatus { projects := [pDraft], task_records := [] } noFaults failReg
    dtoOK "x" "tr1" 100 pDraft (by decide) (by decide) (by decide)

/-- C5 counterexample: `recIncomplete` has `completed = false` and no rating,
yet `updateTaskRating` by requester `x` (not the record's client `c1`) fails
with AuthorizationError, not ValidationError — the authorization check runs
before the completed check, so "fails with ValidationError regardless of the
requester's identity" is false as stated. -/
theorem updateTaskRating_incomplete_wrongRequester :
    recIncomplete.completed = false ∧ recIncomplete.rating = none ∧
    updateTaskRating dbIncomplete noFaults "t1" { rating := 4, comment := none } "x" 300 =
      (Except.error (AppErr.authorization "Only the project client can rate the task"),
       dbIncomplete) ∧
    (updateTaskRating dbIncomplete noFaults "t1" { rating := 4, comment := none } "x" 300).1 ≠
      Except.error (AppErr.validation "Only completed tasks can be rated") := by
  refine ⟨by decide, by decide, by decide, by decide⟩

/-- C5 amended: for every existing TaskRecord with `completed = false` and
rating unset, `updateTaskRating` fails and writes nothing: with
ValidationError when the requester is the record's client, and with
AuthorizationError for any other requester; the database is unchanged in
both cases. -/
theorem updateTaskRating_incomplete
    (db : DB) (rid : String) (data : UpdateTaskRatingDTO) (clientId : String)
    (now : Nat) (r : TaskRecord)
    (hr : db.task_records.find? (fun t => t.id == rid) = some r)
    (hrat : r.rating = none)
    (hcomp : r.completed = false) :
    (r.client_id = clientId →
      updateTaskRating db noFaults rid data clientId now =
        (Except.error (AppErr.validation "Only completed tasks can be rated"), db)) ∧
    (r.client_id ≠ clientId →
      updateTaskRating db noFaults rid data clientId now =
        (Except.error (AppErr.authorization "Only the project client can rate the task"),
         db)) := by
  constructor
  · intro hcl
    simp [updateTaskRating, recordFetch, singleQuery, noFaults, hr, hcl, hrat, hcomp]
  · intro hcl
    simp [updateTaskRating, recordFetch, singleQuery, noFaults, hr, hcl, hrat, hcomp]

/-- C5 witness: ValidationError for the client on the incomplete record, and
AuthorizationError for a stranger. -/
theorem updateTaskRating_incomplete_witness :
    updateTaskRating dbIncomplete noFaults "t1" { rating := 4, comment := none } "c1" 300 =
      (Except.error (AppErr.validation "Only completed tasks can be rated"), dbIncomplete) ∧
    updateTaskRating dbIncomplete noFaults "t1" { rating := 4, comment := none } "x" 300 =
      (Except.error (AppErr.authorization "Only the project client can rate the task"),
       dbIncomplete) :=
  ⟨(updateTaskRating_incomplete dbIncomplete "t1" { rating := 4, comment := none } "c1" 300
      recIncomplete (by decide) (by decide) (by decide)).1 (by decide),
   (updateTaskRating_incomplete dbIncomplete "t1" { rating := 4, comment := none } "x" 300
      recIncomplete (by decide) (by decide) (by decide)).2 (by decide)⟩

/-- C6 counterexample: project `p1` exists (in `draft` status) and requester
`x` differs from its client `c1`, yet `createTaskRecord` fails with
ValidationError, not AuthorizationError — the status check runs first.  "For
every existing project and every foreign requester the call fails with
AuthorizationError" is therefore false as stated (though indeed no registrar
call is made: the trace is empty). -/
theorem createTaskRecord_draft_wrongRequester :
    pDraft.client_id ≠ "x" ∧
    createTaskRecord { projects := [pDraft], task_records := [] } noFaults failReg dtoOK
        "x" "tr1" 100 =
      (Except.error (AppErr.validation
        "Project must be in 'in_progress' status to record task outcome. Current status: draft"),
       { projects := [pDraft], task_records := [] }, Trace.empty) ∧
    (createTaskRecord { projects := [pDraft], task_records := [] } noFaults failReg dtoOK
        "x" "tr1" 100).1 ≠
      Except.error (AppErr.authorization "Only the project client can record task outcomes") := by
  refine ⟨by decide, by decide, by decide⟩

/-- C6 amended: for every existing project in `in_progress` status and every
requester different from the project's client, `createTaskRecord` fails with
AuthorizationError before any registrar call: the trace is empty (zero
registrar invocations, zero inserts) and the database is unchanged. -/
theorem createTaskRecord_wrongRequester
    (db : DB) (faults : Faults) (registrar : Nat → Except Unit BlockchainTaskResult)
    (data : CreateTaskRecordDTO) (clientId freshId : String) (now : Nat) (p : Project)
    (hf : faults.projectFetch = none)
    (hp : db.projects.find? (fun q => q.id == data.project_id) = some p)
    (hst : p.status = "in_progress")
    (hcl : p.client_id ≠ clientId) :
    createTaskRecord db faults registrar data clientId freshId now =
      (Except.error (AppErr.authorization "Only the project client can record task outcomes"),
       db, Trace.empty) ∧
    Trace.empty.registrarCalls = 0 := by
  refine ⟨?_, rfl⟩
  simp [createTaskRecord, projectFetch, singleQuery, hf, hp, hst, hcl]

/-- C6 witness: concrete AuthorizationError for requester `x` on the
in-progress project `pOK`. -/
theorem createTaskRecord_wrongRequester_witness :
    createTaskRecord dbOK noFaults failReg dtoOK "x" "tr1" 100 =
      (Except.error (AppErr.authorization "Only the project client can record task outcomes"),
       dbOK, Trace.empty) ∧
    Trace.empty.registrarCalls = 0 :=
  createTaskRecord_wrongRequester dbOK noFaults failReg dtoOK "x" "tr1" 100 pOK
    (by decide) (by decide) (by decide) (by decide)

/-- C7 counterexample: an unexpected store failure (code `08006`, not the
"no rows" code `PGRST116`) on the initial project lookup makes
`createTaskRecord` fail with NotFound — not InternalError — even though the
project is present in the database.  The code collapses every lookup error
into `NotFoundError` (`if (projectError || !project)`), so "a store failure
on that lookup surfaces as InternalError, not as NotFound" is false. -/
theorem createTaskRecord_storeFault_notFound :
    ({ code := "08006", message := "connection failure" } : StoreError).code ≠ "PGRST116" ∧
    (dbOK.projects.find? (fun q => q.id == dtoOK.project_id)).isSome = true ∧
    createTaskRecord dbOK
        { projectFetch := some { code := "08006", message := "connection failure" } }
        failReg dtoOK "c1" "tr1" 100 =
      (Except.error (AppErr.notFound "Project not found"), dbOK, Trace.empty) ∧
    (createTaskRecord dbOK
        { projectFetch := some { code := "08006", message := "connection failure" } }
        failReg dtoOK "c1" "tr1" 100).1 ≠
      Except.error (AppErr.internal "Database error: connection failure") := by
  refine ⟨by decide, by decide, by decide, by decide⟩

/-- C7 amended: the initial project lookup of `createTaskRecord` fails with
NotFound both when the project is absent and when the store returns any
error (including unexpected store failures, which are not distinguished from
absence and are therefore also surfaced as NotFound, not InternalError); in
either case nothing is written and no registrar call is made. -/
theorem createTaskRecord_projectLookup_notFound
    (db : DB) (faults : Faults) (registrar : Nat → Except Unit BlockchainTaskResult)
    (data : CreateTaskRecordDTO) (clientId freshId : String) (now : Nat) :
    (∀ e : StoreError, faults.projectFetch = some e →
      createTaskRecord db faults registrar data clientId freshId now =
        (Except.error (AppErr.notFound "Project not found"), db, Trace.empty)) ∧
    (faults.projectFetch = none →
      db.projects.find? (fun q => q.id == data.project_id) = none →
      createTaskRecord db faults registrar data clientId freshId now =
        (Except.error (AppErr.notFound "Project not found"), db, Trace.empty)) := by
  constructor
  · intro e he
    simp [createTaskRecord, projectFetch, singleQuery, he]
  · intro hf hp
    simp [createTaskRecord, projectFetch, singleQuery, hf, hp]

/-- C7 witness: NotFound under an injected store error, and NotFound for an
absent project. -/
theorem createTaskRecord_projectLookup_notFound_witness :
    createTaskRecord dbOK { projectFetch := some { code := "57014", message := "timeout" } }
        failReg dtoOK "c1" "tr1" 100 =
      (Except.error (AppErr.notFound "Project not found"), dbOK, Trace.empty) ∧
    createTaskRecord { projects := [], task_records := [] } noFaults failReg dtoOK
        "c1" "tr1" 100 =
      (Except.error (AppErr.notFound "Project not found"),
       { projects := [], task_records := [] }, Trace.empty) :=
  ⟨(createTaskRecord_projectLookup_notFound dbOK
      { projectFetch := some { code := "57014", message := "timeout" } } failReg dtoOK
      "c1" "tr1" 100).1 { code := "57014", message := "timeout" } rfl,
   (createTaskRecord_projectLookup_notFound { projects := [], task_records := [] } noFaults
      failReg dtoOK "c1" "tr1" 100).2 rfl (by decide)⟩

/-- C8: on the successful path of `updateTaskRating`, the comment input is
normalized: a provided comment that is non-empty after trimming is stored
trimmed in `rating_comment`; a provided comment that is blank after trimming
is stored as explicit null; an absent comment leaves `rating_comment`
untouched. -/
theorem updateTaskRating_commentNormalization
    (db : DB) (rid : String) (data : UpdateTaskRatingDTO) (clientId : String)
    (now : Nat) (r : TaskRecord)
    (hr : db.task_records.find? (fun t => t.id == rid) = some r)
    (hcl : r.client_id = clientId)
    (hrat : r.rating = none)
    (hcomp : r.completed = true) :
    ∃ updatedRecord db1,
      updateTaskRating db noFaults rid data clientId now = (Except.ok updatedRecord, db1) ∧
      (∀ c, data.comment = some c → 0 < (jsTrim c).length →
        updatedRecord.rating_comment = some (jsTrim c)) ∧
      (∀ c, data.comment = some c → (jsTrim c).length = 0 →
        updatedRecord.rating_comment = none) ∧
      (data.comment = none → updatedRecord.rating_comment = r.rating_comment) := by
  have hmain : updateTaskRating db noFaults rid data clientId now =
      (Except.ok (applyUpdate r
        { rating := data.rating, rating_comment := normalizeComment data.comment,
          updated_at := now }),
       { db with task_records := db.task_records.map (fun x =>
          if x.id == rid then
            applyUpdate x
              { rating := data.rating, rating_comment := normalizeComment data.comment,
                updated_at := now }
          else x) }) := by
    simp [updateTaskRating, recordFetch, singleQuery, noFaults, updateTaskRecordInStore,
      hr, hcl, hrat, hcomp]
  refine ⟨_, _, hmain, ?_, ?_, ?_⟩
  · intro c hc hlen
    have hcne : c ≠ "" := by
      intro hnil
      rw [hnil] at hlen
      exact absurd hlen (by decide)
    simp [applyUpdate, normalizeComment, hc, hcne, hlen]
  · intro c hc hlen
    simp [applyUpdate, normalizeComment, hc, hlen]
  · intro hc
    simp [applyUpdate, normalizeComment, hc]

/-- C8 witness: a whitespace-only comment is stored as null, a padded
comment is stored trimmed, and an absent comment leaves the field
untouched, all on `recDone`. -/
theorem updateTaskRating_commentNormalization_witness :
    ∃ updatedRecord db1,
      updateTaskRating dbRate noFaults "t1" { rating := 5, comment := some "   " } "c1" 300 =
        (Except.ok updatedRecord, db1) ∧
      (∀ c, (some "   " : Option String) = some c → 0 < (jsTrim c).length →
        updatedRecord.rating_comment = some (jsTrim c)) ∧
      (∀ c, (some "   " : Option String) = some c → (jsTrim c).length = 0 →
        updatedRecord.rating_comment = none) ∧
      ((some "   " : Option String) = none → updatedRecord.rating_comment = recDone.rating_comment) :=
  updateTaskRating_commentNormalization dbRate "t1" { rating := 5, comment := some "   " }
    "c1" 300 recDone (by decide) (by decide) (by decide) (by decide)

/-- Helper: any successful result of `createAfterChecks` is the inserted row,
whose `client_id` is the `clientId` argument, and it is persisted in the
returned database. -/
theorem createAfterChecks_ok
    (db : DB) (faults : Faults) (registrar : Nat → Except Unit BlockchainTaskResult)
    (data : CreateTaskRecordDTO) (clientId freshId : String) (now : Nat) (t : TaskRecord)
    (h : (createAfterChecks db faults registrar data clientId freshId now).1 = Except.ok t) :
    t.client_id = clientId ∧
    t ∈ (createAfterChecks db faults registrar data clientId freshId now).2.1.task_records := by
  cases hf : faults.insertRec with
  | some e =>
    rw [createAfterChecks] at h
    simp [insertTaskRecord, hf] at h
  | none =>
    cases hup : faults.projectUpdate with
    | some e =>
      rw [createAfterChecks] at h ⊢
      simp [insertTaskRecord, updateProjectStatus, hf, hup] at h ⊢
      exact ⟨by rw [← h], by rw [← h]; exact Or.inr rfl⟩
    | none =>
      rw [createAfterChecks] at h ⊢
      simp [insertTaskRecord, updateProjectStatus, hf, hup] at h ⊢
      exact ⟨by rw [← h], by rw [← h]; exact Or.inr rfl⟩

/-- C9: every TaskRecord returned by a successful `createTaskRecord` has its
`client_id` equal to the `clientId` (requester) argument — never a client id
taken from the input `data` — and that record is persisted in the resulting
database.  This holds unconditionally: every success goes through the insert
whose `client_id` field is the requester. -/
theorem createTaskRecord_ok_clientId
    (db : DB) (faults : Faults) (registrar : Nat → Except Unit BlockchainTaskResult)
    (data : CreateTaskRecordDTO) (clientId freshId : String) (now : Nat) (t : TaskRecord)
    (h : (createTaskRecord db faults registrar data clientId freshId now).1 = Except.ok t) :
    t.client_id = clientId ∧
    t ∈ (createTaskRecord db faults registrar data clientId freshId now).2.1.task_records := by
  rw [createTaskRecord] at h ⊢
  rcases hpf : projectFetch db faults.projectFetch data.project_id with ⟨po, pe⟩
  rw [hpf] at h
  cases po with
  | none => simp at h
  | some project =>
    cases pe with
    | some e => simp at h
    | none =>
      cases hst : project.status != "in_progress" with
      | true => simp [hst] at h
      | false =>
        cases hcl : project.client_id != clientId with
        | true => simp [hst, hcl] at h
        | false =>
          simp only [hst, hcl, Bool.false_eq_true, if_false] at h ⊢
          rcases hef : existingFetch db faults.existingFetch data.project_id with ⟨eo, ee⟩
          rw [hef] at h
          cases eo with
          | some x => simp at h
          | none =>
            cases ee with
            | none =>
              exact createAfterChecks_ok db faults registrar data clientId freshId now t h
            | some e =>
              cases hcode : e.code != "PGRST116" with
              | true => simp [hcode] at h
              | false =>
                simp only [hcode, Bool.false_eq_true, if_false] at h ⊢
                exact createAfterChecks_ok db faults registrar data clientId freshId now t h

/-- C9 witness: the record created on `dbOK` with a succeeding registrar has
`client_id = "c1"` and is persisted. -/
theorem createTaskRecord_ok_clientId_witness :
    ∃ t, (createTaskRecord dbOK noFaults okReg dtoOK "c1" "tr1" 100).1 = Except.ok t ∧
      t.client_id = "c1" ∧
      t ∈ (createTaskRecord dbOK noFaults okReg dtoOK "c1" "tr1" 100).2.1.task_records := by
  refine ⟨{ id := "tr1", project_id := "p1", freelancer_id := "f1", client_id := "c1",
            completed := true, outcome_description := none,
            on_chain_tx_hash := some "0xabc", on_chain_task_id := some "7",
            rating := none, rating_comment := none, created_at := 100, updated_at := 100 },
          by decide, ?_, ?_⟩
  · exact (createTaskRecord_ok_clientId dbOK noFaults okReg dtoOK "c1" "tr1" 100 _
      (by decide)).1
  · exact (createTaskRecord_ok_clientId dbOK noFaults okReg dtoOK "c1" "tr1" 100 _
      (by decide)).2

/-- C10: a successful `updateTaskRating` writes only `rating`, `updated_at`
and — only when a comment was provided — `rating_comment` of the targeted
TaskRecord: every other field of that record is unchanged, every other
task record is untouched (the store update only rewrites rows with the
matching id), and no project is modified. -/
theorem updateTaskRating_frame
    (db : DB) (rid : String) (data : UpdateTaskRatingDTO) (clientId : String)
    (now : Nat) (r : TaskRecord)
    (hr : db.task_records.find? (fun t => t.id == rid) = some r)
    (hcl : r.client_id = clientId)
    (hrat : r.rating = none)
    (hcomp : r.completed = true) :
    ∃ updatedRecord db1,
      updateTaskRating db noFaults rid data clientId now = (Except.ok updatedRecord, db1) ∧
      updatedRecord.rating = some data.rating ∧
      updatedRecord.updated_at = now ∧
      updatedRecord.project_id = r.project_id ∧
      updatedRecord.freelancer_id = r.freelancer_id ∧
      updatedRecord.client_id = r.client_id ∧
      updatedRecord.completed = r.completed ∧
      updatedRecord.outcome_description = r.outcome_description ∧
      updatedRecord.on_chain_tx_hash = r.on_chain_tx_hash ∧
      updatedRecord.on_chain_task_id = r.on_chain_task_id ∧
      updatedRecord.created_at = r.created_at ∧
      updatedRecord.id = r.id ∧
      (data.comment = none → updatedRecord.rating_comment = r.rating_comment) ∧
      db1.projects = db.projects ∧
      db1.task_records = db.task_records.map (fun x =>
        if x.id == rid then
          applyUpdate x
            { rating := data.rating, rating_comment := normalizeComment data.comment,
              updated_at := now }
        else x) ∧
      ∀ x ∈ db.task_records, (x.id == rid) = false → x ∈ db1.task_records := by
  have hmain : updateTaskRating db noFaults rid data clientId now =
      (Except.ok (applyUpdate r
        { rating := data.rating, rating_comment := normalizeComment data.comment,
          updated_at := now }),
       { db with task_records := db.task_records.map (fun x =>
          if x.id == rid then
            applyUpdate x
              { rating := data.rating, rating_comment := normalizeComment data.comment,
                updated_at := now }
          else x) }) := by
    simp [updateTaskRating, recordFetch, singleQuery, noFaults, updateTaskRecordInStore,
      hr, hcl, hrat, hcomp]
  refine ⟨_, _, hmain, ?_, ?_, ?_, ?_, ?_, ?_, ?_, ?_, ?_, ?_, ?_, ?_, ?_, ?_, ?_⟩
  · simp [applyUpdate]
  · simp [applyUpdate]
  · simp [applyUpdate]
  · simp [applyUpdate]
  · simp [applyUpdate]
  · simp [applyUpdate]
  · simp [applyUpdate]
  · simp [applyUpdate]
  · simp [applyUpdate]
  · simp [applyUpdate]
  · simp [applyUpdate]
  · intro hc
    simp [applyUpdate, normalizeComment, hc]
  · rfl
  · rfl
  · intro x hx hne
    have hfix : (if x.id == rid then
        applyUpdate x
          { rating := data.rating, rating_comment := normalizeComment data.comment,
            updated_at := now }
      else x) = x := by rw [hne]; rfl
    have := List.mem_map_of_mem (fun y : TaskRecord =>
      if y.id == rid then
        applyUpdate y
          { rating := data.rating, rating_comment := normalizeComment data.comment,
            updated_at := now }
      else y) hx
    simp only [hfix] at this
    exact this

/-- C10 witness: concrete successful rating update on `dbRate` touching only
the rating fields of `recDone`. -/
theorem updateTaskRating_frame_witness :
    ∃ updatedRecord db1,
      updateTaskRating dbRate noFaults "t1" { rating := 5, comment := some "Great work" }
          "c1" 300 = (Except.ok updatedRecord, db1) ∧
      updatedRecord.rating = some 5 ∧
      updatedRecord.updated_at = 300 ∧
      updatedRecord.project_id = recDone.project_id ∧
      updatedRecord.freelancer_id = recDone.freelancer_id ∧
      updatedRecord.client_id = recDone.client_id ∧
      updatedRecord.completed = recDone.completed ∧
      updatedRecord.outcome_description = recDone.outcome_description ∧
      updatedRecord.on_chain_tx_hash = recDone.on_chain_tx_hash ∧
      updatedRecord.on_chain_task_id = recDone.on_chain_task_id ∧
      updatedRecord.created_at = recDone.created_at ∧
      updatedRecord.id = recDone.id ∧
      ((some "Great work" : Option String) = none →
        updatedRecord.rating_comment = recDone.rating_comment) ∧
      db1.projects = dbRate.projects ∧
      db1.task_records = dbRate.task_records.map (fun x =>
        if x.id == "t1" then
          applyUpdate x
            { rating := 5, rating_comment := normalizeComment (some "Great work"),
              updated_at := 300 }
        else x) ∧
      ∀ x ∈ dbRate.task_records, (x.id == "t1") = false → x ∈ db1.task_records :=
  updateTaskRating_frame dbRate "t1" { rating := 5, comment := some "Great work" } "c1" 300
    recDone (by decide) (by decide) (by decide) (by decide)
